import Mathlib

set_option linter.unusedVariables false

/-!
Shallow embedding of the LLM provider-fallback client of `src/ai/genkit-with-fallback.ts`
(the revision the specification documents: default 1024 tokens / 0.7 temperature,
health probe with prompt "ping", 16 tokens, temperature 0).

The network is modelled as a pure oracle `Net`: one function per request family
(Gemini-style, chat-completions-style) from the exact request the adapter builds
to the HTTP response observed. Response bodies are modelled with the shape the
code's optional-chaining accesses assume (`candidates[0]?.content?.parts[0]?.text`
and `choices[0]?.message?.content`); JavaScript truthiness of the extracted field
is preserved (a present but empty string is falsy). The orchestrator additionally
returns ghost state: the list of configs for which an adapter was actually
invoked, and the accumulated per-attempt error records, so that claims about
call counts and appended records are statable.
-/

namespace MyBot

/-- The provider tag of a model configuration (union of four string literals in the source). -/
inductive Provider : Type
  | gemini
  | openai
  | openrouter
  | grok
deriving DecidableEq, Repr

/-- The string the source stores in the `provider` field (the literal itself). -/
def Provider.name : Provider → String
  | .gemini => "gemini"
  | .openai => "openai"
  | .openrouter => "openrouter"
  | .grok => "grok"

/-- One entry of the fallback configuration list (`ModelConfig` in the source). -/
structure ModelConfig : Type where
  provider : Provider
  model : String
  apiKey : String
deriving DecidableEq, Repr

/-- The successful-call result returned to the caller (`FallbackResponse` in the source). -/
structure FallbackResponse : Type where
  content : String
  provider : String
  model : String
  success : Bool
deriving DecidableEq, Repr

/-- One record per failed or skipped attempt (the element type of the `errors` array). -/
structure AttemptError : Type where
  config : ModelConfig
  error : String
deriving DecidableEq, Repr

/-- Default generation settings of the source (`DEFAULT_TEMPERATURE = 0.7`). -/
def DEFAULT_TEMPERATURE : Rat := 7 / 10

/-- Default generation settings of the source (`DEFAULT_MAX_TOKENS = 1024`). -/
def DEFAULT_MAX_TOKENS : Nat := 1024

/-- The environment variables the static configuration list reads
(`process.env.X || ''`: an absent variable is the empty string). -/
structure EnvVars : Type where
  GEMINI_API_KEY : String
  GEMINI_API_KEY_SECONDARY : String
  OPENROUTER_API_KEY : String
  OPENAI_API_KEY : String
  GROK_API_KEY : String
deriving DecidableEq, Repr

/-- The static priority-ordered configuration list (`modelConfigs` in the source),
entry for entry, in source order. -/
def modelConfigs (e : EnvVars) : List ModelConfig :=
  [ ⟨.gemini, "gemini-2.5-flash", e.GEMINI_API_KEY⟩,
    ⟨.openrouter, "deepseek/deepseek-r1:free", e.OPENROUTER_API_KEY⟩,
    ⟨.openrouter, "deepseek/deepseek-r1-distill-qwen-32b:free", e.OPENROUTER_API_KEY⟩,
    ⟨.openrouter, "meta-llama/llama-4-maverick:free", e.OPENROUTER_API_KEY⟩,
    ⟨.gemini, "gemini-2.0-flash", e.GEMINI_API_KEY⟩,
    ⟨.gemini, "gemini-1.5-pro", e.GEMINI_API_KEY⟩,
    ⟨.gemini, "gemini-1.5-pro", e.GEMINI_API_KEY_SECONDARY⟩,
    ⟨.gemini, "gemini-2.5-pro", e.GEMINI_API_KEY⟩,
    ⟨.gemini, "gemini-3-pro", e.GEMINI_API_KEY⟩,
    ⟨.openai, "gpt-4-turbo", e.OPENAI_API_KEY⟩,
    ⟨.openrouter, "openai/gpt-4-turbo", e.OPENROUTER_API_KEY⟩,
    ⟨.openrouter, "meta-llama/llama-3.3-70b-instruct", e.OPENROUTER_API_KEY⟩,
    ⟨.grok, "grok-2", e.GROK_API_KEY⟩ ]

/-- The request `callGemini` builds: POST to
`generativelanguage.googleapis.com/v1beta/models/{model}:generateContent` with
header `x-goog-api-key` and body `{contents:[{parts:[{text}]}], generationConfig}`.
The body holds exactly these fields; in particular no schema field exists. -/
structure GeminiRequest : Type where
  model : String
  apiKey : String
  text : String
  temperature : Rat
  maxOutputTokens : Nat
deriving DecidableEq, Repr

/-- The request the chat-completions adapters (OpenAI, OpenRouter, Grok) build:
POST to `url` with bearer `apiKey`, body `{model, messages:[{role:"user", content}],
temperature, max_tokens}`; OpenRouter additionally sends `HTTP-Referer` and
`X-Title` headers, modelled as the two optional fields. -/
structure ChatRequest : Type where
  url : String
  apiKey : String
  httpReferer : Option String
  xTitle : Option String
  model : String
  content : String
  temperature : Rat
  max_tokens : Nat
deriving DecidableEq, Repr

/-- One element of `candidates[i].content.parts` in a Gemini response body. -/
structure GeminiPart : Type where
  text : Option String
deriving DecidableEq, Repr

/-- The `content` object of a Gemini candidate; `parts` is the array the code
indexes with `parts[0]?`. -/
structure GeminiContent : Type where
  parts : List GeminiPart
deriving DecidableEq, Repr

/-- One element of `candidates` in a Gemini response body. -/
structure GeminiCandidate : Type where
  content : Option GeminiContent
deriving DecidableEq, Repr

/-- The parsed JSON body of a Gemini response, shaped as the code's
`data.candidates && data.candidates[0]?.content?.parts[0]?.text` access assumes. -/
structure GeminiBody : Type where
  candidates : Option (List GeminiCandidate)
deriving DecidableEq, Repr

/-- The `message` object of a chat-completions choice. -/
structure ChatMessage : Type where
  content : Option String
deriving DecidableEq, Repr

/-- One element of `choices` in a chat-completions response body. -/
structure ChatChoice : Type where
  message : Option ChatMessage
deriving DecidableEq, Repr

/-- The parsed JSON body of a chat-completions response, shaped as the code's
`data.choices && data.choices[0]?.message?.content` access assumes. -/
structure ChatBody : Type where
  choices : Option (List ChatChoice)
deriving DecidableEq, Repr

/-- An HTTP response as the adapters observe it: `ok`, `status`, `statusText`
and the parsed JSON body. -/
structure HttpResponse (β : Type) : Type where
  ok : Bool
  status : Nat
  statusText : String
  body : β
deriving DecidableEq, Repr

/-- The outside world: a deterministic response for every request the adapters
can issue, plus the `NEXT_PUBLIC_APP_URL` environment variable the OpenRouter
adapter reads (absent = empty string). -/
structure Net : Type where
  fetchGemini : GeminiRequest → HttpResponse GeminiBody
  fetchChat : ChatRequest → HttpResponse ChatBody
  appUrl : String

/-- The value of `data.candidates[0]?.content?.parts[0]?.text` (guarded by
`data.candidates &&`): `none` wherever the JavaScript chain is nullish. -/
def geminiTextField (data : GeminiBody) : Option String :=
  match data.candidates with
  | none => none
  | some candidates =>
    match candidates.head? with
    | none => none
    | some candidate =>
      match candidate.content with
      | none => none
      | some content =>
        match content.parts.head? with
        | none => none
        | some part => part.text

/-- The value of `data.choices[0]?.message?.content` (guarded by `data.choices &&`):
`none` wherever the JavaScript chain is nullish. -/
def chatContentField (data : ChatBody) : Option String :=
  match data.choices with
  | none => none
  | some choices =>
    match choices.head? with
    | none => none
    | some choice =>
      match choice.message with
      | none => none
      | some message => message.content

/-- JavaScript truthiness of the extracted field: a present, non-empty string. -/
def truthyString : Option String → Bool
  | some s => !(s == "")
  | none => false

/-- The request `callGemini` issues, field for field. -/
def geminiRequest (model apiKey prompt : String) (temperature : Rat) (maxTokens : Nat) :
    GeminiRequest :=
  ⟨model, apiKey, prompt, temperature, maxTokens⟩

/-- The request `callOpenAI` issues, field for field. -/
def openAIRequest (model apiKey prompt : String) (temperature : Rat) (maxTokens : Nat) :
    ChatRequest :=
  ⟨"https://api.openai.com/v1/chat/completions", apiKey, none, none,
    model, prompt, temperature, maxTokens⟩

/-- The request `callOpenRouter` issues: the `HTTP-Referer` header is
`process.env.NEXT_PUBLIC_APP_URL || 'http://localhost:3000'`. -/
def openRouterRequest (net : Net) (model apiKey prompt : String) (temperature : Rat)
    (maxTokens : Nat) : ChatRequest :=
  ⟨"https://openrouter.ai/api/v1/chat/completions", apiKey,
    some (if net.appUrl == "" then "http://localhost:3000" else net.appUrl),
    some "MyBot", model, prompt, temperature, maxTokens⟩

/-- The request `callGrok` issues, field for field. -/
def grokRequest (model apiKey prompt : String) (temperature : Rat) (maxTokens : Nat) :
    ChatRequest :=
  ⟨"https://api.x.ai/v1/chat/completions", apiKey, none, none,
    model, prompt, temperature, maxTokens⟩

/-- The `callGemini` adapter: builds the Gemini request, checks `response.ok`,
and extracts `candidates[0].content.parts[0].text` under the source's truthiness
guard. The `schema` parameter is accepted and, as in the source, never used. -/
def callGemini {σ : Type} (net : Net) (model : String) (apiKey : String)
    (prompt : String) (schema : Option σ) (maxTokens : Nat) (temperature : Rat) :
    Except String String :=
  let response := net.fetchGemini (geminiRequest model apiKey prompt temperature maxTokens)
  if response.ok = false then
    Except.error ("Gemini API error: " ++ toString response.status ++ " " ++
      response.statusText)
  else
    match geminiTextField response.body with
    | some text =>
      if text == "" then Except.error "Invalid response from Gemini API"
      else Except.ok text
    | none => Except.error "Invalid response from Gemini API"

/-- The `callOpenAI` adapter: chat-completions request to `api.openai.com`,
extraction of `choices[0].message.content` under the truthiness guard. -/
def callOpenAI {σ : Type} (net : Net) (model : String) (apiKey : String)
    (prompt : String) (schema : Option σ) (maxTokens : Nat) (temperature : Rat) :
    Except String String :=
  let response := net.fetchChat (openAIRequest model apiKey prompt temperature maxTokens)
  if response.ok = false then
    Except.error ("OpenAI API error: " ++ toString response.status ++ " " ++
      response.statusText)
  else
    match chatContentField response.body with
    | some content =>
      if content == "" then Except.error "Invalid response from OpenAI API"
      else Except.ok content
    | none => Except.error "Invalid response from OpenAI API"

/-- The `callOpenRouter` adapter: chat-completions request to `openrouter.ai`
with the extra `HTTP-Referer` (from `NEXT_PUBLIC_APP_URL`, defaulting to
`http://localhost:3000` when falsy) and `X-Title: MyBot` headers. -/
def callOpenRouter {σ : Type} (net : Net) (model : String) (apiKey : String)
    (prompt : String) (schema : Option σ) (maxTokens : Nat) (temperature : Rat) :
    Except String String :=
  let response := net.fetchChat (openRouterRequest net model apiKey prompt temperature maxTokens)
  if response.ok = false then
    Except.error ("OpenRouter API error: " ++ toString response.status ++ " " ++
      response.statusText)
  else
    match chatContentField response.body with
    | some content =>
      if content == "" then Except.error "Invalid response from OpenRouter API"
      else Except.ok content
    | none => Except.error "Invalid response from OpenRouter API"

/-- The `callGrok` adapter: chat-completions request to `api.x.ai`. -/
def callGrok {σ : Type} (net : Net) (model : String) (apiKey : String)
    (prompt : String) (schema : Option σ) (maxTokens : Nat) (temperature : Rat) :
    Except String String :=
  let response := net.fetchChat (grokRequest model apiKey prompt temperature maxTokens)
  if response.ok = false then
    Except.error ("Grok API error: " ++ toString response.status ++ " " ++
      response.statusText)
  else
    match chatContentField response.body with
    | some content =>
      if content == "" then Except.error "Invalid response from Grok API"
      else Except.ok content
    | none => Except.error "Invalid response from Grok API"

/-- The `callModel` dispatcher: exhaustive switch on `config.provider`. -/
def callModel {σ : Type} (net : Net) (config : ModelConfig) (prompt : String)
    (schema : Option σ) (maxTokens : Nat) (temperature : Rat) :
    Except String String :=
  match config.provider with
  | .gemini => callGemini net config.model config.apiKey prompt schema maxTokens temperature
  | .openai => callOpenAI net config.model config.apiKey prompt schema maxTokens temperature
  | .openrouter => callOpenRouter net config.model config.apiKey prompt schema maxTokens temperature
  | .grok => callGrok net config.model config.apiKey prompt schema maxTokens temperature

/-- One line of the aggregated diagnostic: `{provider}/{model}: {error}`. -/
def attemptLine (e : AttemptError) : String :=
  e.config.provider.name ++ "/" ++ e.config.model ++ ": " ++ e.error

/-- The message of the error thrown on exhaustion: the fixed header followed by
the newline-joined attempt lines. -/
def allFailedMessage (errors : List AttemptError) : String :=
  "All AI models failed. Please check your API keys, quotas, or network:\n" ++
    String.intercalate "\n" (errors.map attemptLine)

/-- The observable outcome of one orchestrator call: the returned response or
thrown error message, plus ghost state (the configs for which an adapter was
invoked, in invocation order, and the accumulated attempt records). -/
structure FallbackOut : Type where
  result : Except String FallbackResponse
  invoked : List ModelConfig
  errors : List AttemptError

/-- The orchestrator's loop (`for (const config of modelConfigs)` in the source)
over the remaining configs, carrying the accumulated `errors` and the ghost
`invoked` trace: a config with an empty key is skipped with the record
`API key not configured`; otherwise the adapter is invoked and the loop either
returns the successful `FallbackResponse` or records the failure and continues;
exhaustion throws `allFailedMessage`. -/
def fallbackLoop {σ : Type} (net : Net) (prompt : String) (schema : Option σ)
    (maxTokens : Nat) (temperature : Rat) (errors : List AttemptError)
    (invoked : List ModelConfig) : List ModelConfig → FallbackOut
  | [] => ⟨Except.error (allFailedMessage errors), invoked, errors⟩
  | config :: rest =>
    if config.apiKey == "" then
      fallbackLoop net prompt schema maxTokens temperature
        (errors ++ [⟨config, "API key not configured"⟩]) invoked rest
    else
      match callModel net config prompt schema maxTokens temperature with
      | Except.ok content =>
        ⟨Except.ok ⟨content, config.provider.name, config.model, true⟩,
          invoked ++ [config], errors⟩
      | Except.error errorMessage =>
        fallbackLoop net prompt schema maxTokens temperature
          (errors ++ [⟨config, errorMessage⟩]) (invoked ++ [config]) rest

/-- The public orchestrator `callModelWithFallback`, generalized (as the spec's
testable properties do) over the configuration list it iterates. -/
def callModelWithFallback {σ : Type} (net : Net) (configs : List ModelConfig)
    (prompt : String) (schema : Option σ) (maxTokens : Nat) (temperature : Rat) :
    FallbackOut :=
  fallbackLoop net prompt schema maxTokens temperature [] [] configs

/-- The source's `getAvailableModels`: filter of the static list by a truthy key. -/
def getAvailableModels (e : EnvVars) : List ModelConfig :=
  (modelConfigs e).filter (fun config => !(config.apiKey == ""))

/-- One record of the health check: `{config, available, error?}`. -/
structure AvailabilityResult : Type where
  config : ModelConfig
  available : Bool
  error : Option String
deriving DecidableEq, Repr

/-- The loop of `checkModelAvailability` over the remaining configs, returning
the result records in order plus the ghost trace of configs actually probed:
an unconfigured entry yields `available: false, error: "API key not configured"`
without a probe; a configured entry is probed with `callModel(config, 'ping',
undefined, 16, 0)` and yields `available: true` or the error message. -/
def checkLoop (net : Net) : List ModelConfig → List AvailabilityResult × List ModelConfig
  | [] => ([], [])
  | config :: rest =>
    let tail := checkLoop net rest
    if config.apiKey == "" then
      (⟨config, false, some "API key not configured"⟩ :: tail.1, tail.2)
    else
      match callModel net config "ping" (none : Option Unit) 16 0 with
      | Except.ok _ => (⟨config, true, none⟩ :: tail.1, config :: tail.2)
      | Except.error e => (⟨config, false, some e⟩ :: tail.1, config :: tail.2)

/-- The source's `checkModelAvailability`, generalized over the list it iterates. -/
def checkModelAvailability (net : Net) (configs : List ModelConfig) :
    List AvailabilityResult × List ModelConfig :=
  checkLoop net configs

/-- Whether an `Except` is a success (`ok`). -/
def exOk {ε α : Type} : Except ε α → Bool
  | Except.ok _ => true
  | Except.error _ => false

/-- The error payload of a failed `Except` (empty string on success; only ever
read on failures). -/
def errOf {α : Type} : Except String α → String
  | Except.ok _ => ""
  | Except.error m => m

/-- The first configured entry whose adapter call succeeds, with its content. -/
def firstSuccess {σ : Type} (net : Net) (prompt : String) (schema : Option σ)
    (maxTokens : Nat) (temperature : Rat) :
    List ModelConfig → Option (ModelConfig × String)
  | [] => none
  | config :: rest =>
    if config.apiKey == "" then
      firstSuccess net prompt schema maxTokens temperature rest
    else
      match callModel net config prompt schema maxTokens temperature with
      | Except.ok content => some (config, content)
      | Except.error _ => firstSuccess net prompt schema maxTokens temperature rest

/-- The configs for which the loop invokes an adapter, in order: the configured
entries up to and including the first success. -/
def invokedOf {σ : Type} (net : Net) (prompt : String) (schema : Option σ)
    (maxTokens : Nat) (temperature : Rat) : List ModelConfig → List ModelConfig
  | [] => []
  | config :: rest =>
    if config.apiKey == "" then
      invokedOf net prompt schema maxTokens temperature rest
    else
      match callModel net config prompt schema maxTokens temperature with
      | Except.ok _ => [config]
      | Except.error _ => config :: invokedOf net prompt schema maxTokens temperature rest

/-- The attempt records accumulated by the loop up to its return point. -/
def attemptRecords {σ : Type} (net : Net) (prompt : String) (schema : Option σ)
    (maxTokens : Nat) (temperature : Rat) : List ModelConfig → List AttemptError
  | [] => []
  | config :: rest =>
    if config.apiKey == "" then
      ⟨config, "API key not configured"⟩ ::
        attemptRecords net prompt schema maxTokens temperature rest
    else
      match callModel net config prompt schema maxTokens temperature with
      | Except.ok _ => []
      | Except.error m =>
        ⟨config, m⟩ :: attemptRecords net prompt schema maxTokens temperature rest

/-- Full characterization of the orchestrator loop in terms of `firstSuccess`,
`invokedOf` and `attemptRecords`. -/
lemma fallbackLoop_spec {σ : Type} (net : Net) (prompt : String) (schema : Option σ)
    (maxTokens : Nat) (temperature : Rat) :
    ∀ (rest : List ModelConfig) (errors : List AttemptError) (invoked : List ModelConfig),
    fallbackLoop net prompt schema maxTokens temperature errors invoked rest =
      ⟨(match firstSuccess net prompt schema maxTokens temperature rest with
        | some (config, content) =>
          Except.ok ⟨content, config.provider.name, config.model, true⟩
        | none =>
          Except.error (allFailedMessage
            (errors ++ attemptRecords net prompt schema maxTokens temperature rest))),
        invoked ++ invokedOf net prompt schema maxTokens temperature rest,
        errors ++ attemptRecords net prompt schema maxTokens temperature rest⟩ := by
  intro rest
  induction rest with
  | nil =>
    intro errors invoked
    simp [fallbackLoop, firstSuccess, invokedOf, attemptRecords]
  | cons config rest ih =>
    intro errors invoked
    by_cases hc : config.apiKey == ""
    · simp only [fallbackLoop, firstSuccess, invokedOf, attemptRecords, hc, if_pos]
      rw [ih]
      simp
    · simp only [fallbackLoop, firstSuccess, invokedOf, attemptRecords, hc,
        if_neg, Bool.false_eq_true, not_false_eq_true]
      cases hm : callModel net config prompt schema maxTokens temperature with
      | ok content => simp
      | error m => simp [ih]

/-- The observable pieces of `callModelWithFallback`, specialized from
`fallbackLoop_spec` at empty accumulators. -/
lemma callModelWithFallback_spec {σ : Type} (net : Net) (configs : List ModelConfig)
    (prompt : String) (schema : Option σ) (maxTokens : Nat) (temperature : Rat) :
    callModelWithFallback net configs prompt schema maxTokens temperature =
      ⟨(match firstSuccess net prompt schema maxTokens temperature configs with
        | some (config, content) =>
          Except.ok ⟨content, config.provider.name, config.model, true⟩
        | none =>
          Except.error (allFailedMessage
            (attemptRecords net prompt schema maxTokens temperature configs))),
        invokedOf net prompt schema maxTokens temperature configs,
        attemptRecords net prompt schema maxTokens temperature configs⟩ := by
  rw [callModelWithFallback, fallbackLoop_spec]
  simp

/-- Every config in the invocation trace has a non-empty key: an unconfigured
entry is never invoked. -/
lemma invokedOf_configured {σ : Type} (net : Net) (prompt : String) (schema : Option σ)
    (maxTokens : Nat) (temperature : Rat) :
    ∀ l : List ModelConfig, ∀ c ∈ invokedOf net prompt schema maxTokens temperature l,
      c.apiKey ≠ "" := by
  intro l
  induction l with
  | nil => simp [invokedOf]
  | cons config rest ih =>
    by_cases hc : config.apiKey == ""
    · simpa [invokedOf, hc] using ih
    · cases hm : callModel net config prompt schema maxTokens temperature with
      | ok content =>
        intro c hcmem
        simp [invokedOf, hc, hm] at hcmem
        subst hcmem
        simpa using hc
      | error m =>
        intro c hcmem
        simp [invokedOf, hc, hm] at hcmem
        rcases hcmem with rfl | hcm
        · simpa using hc
        · exact ih c hcm

/-- The invocation trace is the configured sublist of some prefix of the list. -/
lemma invokedOf_take_filter {σ : Type} (net : Net) (prompt : String) (schema : Option σ)
    (maxTokens : Nat) (temperature : Rat) :
    ∀ l : List ModelConfig, ∃ n, n ≤ l.length ∧
      invokedOf net prompt schema maxTokens temperature l =
        (l.take n).filter (fun c => !(c.apiKey == "")) := by
  intro l
  induction l with
  | nil => exact ⟨0, by simp, by simp [invokedOf]⟩
  | cons config rest ih =>
    by_cases hc : config.apiKey == ""
    · obtain ⟨n, hn, he⟩ := ih
      exact ⟨n + 1, by simpa using hn, by simp [invokedOf, hc, he]⟩
    · cases hm : callModel net config prompt schema maxTokens temperature with
      | ok content =>
        exact ⟨1, by simp, by simp [invokedOf, hc, hm]⟩
      | error m =>
        obtain ⟨n, hn, he⟩ := ih
        exact ⟨n + 1, by simpa using hn, by simp [invokedOf, hc, hm, he]⟩

/-- When every entry is unconfigured or its adapter call fails, no entry succeeds. -/
lemma firstSuccess_eq_none {σ : Type} (net : Net) (prompt : String) (schema : Option σ)
    (maxTokens : Nat) (temperature : Rat) :
    ∀ l : List ModelConfig,
      (∀ c ∈ l, c.apiKey = "" ∨ exOk (callModel net c prompt schema maxTokens temperature) = false) →
      firstSuccess net prompt schema maxTokens temperature l = none := by
  intro l
  induction l with
  | nil => simp [firstSuccess]
  | cons config rest ih =>
    intro h
    have htail : firstSuccess net prompt schema maxTokens temperature rest = none :=
      ih fun c hc => h c (by simp [hc])
    by_cases hc : config.apiKey == ""
    · simp [firstSuccess, hc, htail]
    · rcases h config (by simp) with hk | hf
      · exact absurd (by simpa using hk) (by simpa using hc)
      · cases hm : callModel net config prompt schema maxTokens temperature with
        | ok content => rw [hm] at hf; simp [exOk] at hf
        | error m => simp [firstSuccess, hc, hm, htail]

/-- When every entry is unconfigured or fails, the accumulated records are one
per entry, in list order, with the skip message or the adapter's error message. -/
lemma attemptRecords_eq_map {σ : Type} (net : Net) (prompt : String) (schema : Option σ)
    (maxTokens : Nat) (temperature : Rat) :
    ∀ l : List ModelConfig,
      (∀ c ∈ l, c.apiKey = "" ∨ exOk (callModel net c prompt schema maxTokens temperature) = false) →
      attemptRecords net prompt schema maxTokens temperature l =
        l.map (fun c => ⟨c, if c.apiKey == "" then "API key not configured"
          else errOf (callModel net c prompt schema maxTokens temperature)⟩) := by
  intro l
  induction l with
  | nil => simp [attemptRecords]
  | cons config rest ih =>
    intro h
    have htail := ih fun c hc => h c (by simp [hc])
    by_cases hc : config.apiKey == ""
    · have hceq : config.apiKey = "" := by simpa using hc
      simp [attemptRecords, hc, htail, hceq]
    · have hcne : ¬ config.apiKey = "" := by simpa using hc
      rcases h config (by simp) with hk | hf
      · exact absurd hk hcne
      · cases hm : callModel net config prompt schema maxTokens temperature with
        | ok content => rw [hm] at hf; simp [exOk] at hf
        | error m => simp [attemptRecords, hc, hm, htail, errOf, hcne]

/-- When entry `i` is configured and succeeds while every earlier entry is
unconfigured or fails, `firstSuccess` picks entry `i` and the invocation trace
is exactly the configured entries of the first `i + 1` entries. -/
lemma firstSuccess_at {σ : Type} (net : Net) (prompt : String) (schema : Option σ)
    (maxTokens : Nat) (temperature : Rat) :
    ∀ (l : List ModelConfig) (i : Nat) (ci : ModelConfig) (content : String),
      l[i]? = some ci → ci.apiKey ≠ "" →
      callModel net ci prompt schema maxTokens temperature = Except.ok content →
      (∀ k ck, k < i → l[k]? = some ck →
        ck.apiKey = "" ∨ exOk (callModel net ck prompt schema maxTokens temperature) = false) →
      firstSuccess net prompt schema maxTokens temperature l = some (ci, content) ∧
      invokedOf net prompt schema maxTokens temperature l =
        (l.take (i + 1)).filter (fun c => !(c.apiKey == "")) := by
  intro l
  induction l with
  | nil => intro i ci content hg; simp at hg
  | cons config rest ih =>
    intro i ci content hg hk hok hbef
    cases i with
    | zero =>
      have hg0 : config = ci := by simpa using hg
      subst hg0
      have hc : (config.apiKey == "") = false := by simpa using hk
      refine ⟨by simp [firstSuccess, hc, hok], ?_⟩
      simp [invokedOf, hc, hok]
    | succ j =>
      have hg2 : rest[j]? = some ci := by simpa using hg
      have hbef2 : ∀ k ck, k < j → rest[k]? = some ck →
          ck.apiKey = "" ∨ exOk (callModel net ck prompt schema maxTokens temperature) = false := by
        intro k ck hkj hgk
        exact hbef (k + 1) ck (Nat.succ_lt_succ hkj) (by simpa using hgk)
      obtain ⟨h1, h2⟩ := ih j ci content hg2 hk hok hbef2
      rcases hbef 0 config (Nat.succ_pos j) (by simp) with hke | hfail
      · have hc : (config.apiKey == "") = true := by simpa using hke
        refine ⟨by simp [firstSuccess, hc, h1], ?_⟩
        simp [invokedOf, hc, h2]
      · cases hm : callModel net config prompt schema maxTokens temperature with
        | ok c2 => rw [hm] at hfail; simp [exOk] at hfail
        | error m =>
          by_cases hc : config.apiKey == ""
          · refine ⟨by simp [firstSuccess, hc, h1], ?_⟩
            simp [invokedOf, hc, h2]
          · refine ⟨by simp [firstSuccess, hc, hm, h1], ?_⟩
            simp [invokedOf, hc, hm, h2]

/-- When the loop reaches an unconfigured entry `j` (no earlier entry succeeds),
the record `{config, "API key not configured"}` is among the accumulated records. -/
lemma attemptRecords_mem_skip {σ : Type} (net : Net) (prompt : String) (schema : Option σ)
    (maxTokens : Nat) (temperature : Rat) :
    ∀ (l : List ModelConfig) (j : Nat) (cj : ModelConfig),
      l[j]? = some cj → cj.apiKey = "" →
      (∀ k ck, k < j → l[k]? = some ck →
        ck.apiKey = "" ∨ exOk (callModel net ck prompt schema maxTokens temperature) = false) →
      (⟨cj, "API key not configured"⟩ : AttemptError) ∈
        attemptRecords net prompt schema maxTokens temperature l := by
  intro l
  induction l with
  | nil => intro j cj hg; simp at hg
  | cons config rest ih =>
    intro j cj hg hk hbef
    cases j with
    | zero =>
      have hg0 : config = cj := by simpa using hg
      subst hg0
      have hc : (config.apiKey == "") = true := by simpa using hk
      simp [attemptRecords, hc]
    | succ j =>
      have hg2 : rest[j]? = some cj := by simpa using hg
      have hbef2 : ∀ k ck, k < j → rest[k]? = some ck →
          ck.apiKey = "" ∨ exOk (callModel net ck prompt schema maxTokens temperature) = false := by
        intro k ck hkj hgk
        exact hbef (k + 1) ck (Nat.succ_lt_succ hkj) (by simpa using hgk)
      have htail := ih j cj hg2 hk hbef2
      rcases hbef 0 config (Nat.succ_pos j) (by simp) with hke | hfail
      · have hc : (config.apiKey == "") = true := by simpa using hke
        simp [attemptRecords, hc]
        right
        exact htail
      · cases hm : callModel net config prompt schema maxTokens temperature with
        | ok c2 => rw [hm] at hfail; simp [exOk] at hfail
        | error m =>
          by_cases hc : config.apiKey == ""
          · simp [attemptRecords, hc]
            right
            exact htail
          · simp [attemptRecords, hc, hm]
            right
            exact htail

/-- The dispatcher's outcome does not depend on the schema argument: no adapter
reads it, and no request field carries it. -/
lemma callModel_schema {σ₁ σ₂ : Type} (net : Net) (config : ModelConfig) (prompt : String)
    (s1 : Option σ₁) (s2 : Option σ₂) (maxTokens : Nat) (temperature : Rat) :
    callModel net config prompt s1 maxTokens temperature =
      callModel net config prompt s2 maxTokens temperature := by
  rcases config with ⟨p, m, k⟩
  cases p <;> rfl

/-- The whole loop is schema-independent. -/
lemma fallbackLoop_schema {σ₁ σ₂ : Type} (net : Net) (prompt : String)
    (s1 : Option σ₁) (s2 : Option σ₂) (maxTokens : Nat) (temperature : Rat) :
    ∀ (rest : List ModelConfig) (errors : List AttemptError) (invoked : List ModelConfig),
    fallbackLoop net prompt s1 maxTokens temperature errors invoked rest =
      fallbackLoop net prompt s2 maxTokens temperature errors invoked rest := by
  intro rest
  induction rest with
  | nil => intro errors invoked; rfl
  | cons config rest ih =>
    intro errors invoked
    simp only [fallbackLoop]
    rw [callModel_schema net config prompt s1 s2 maxTokens temperature]
    by_cases hc : config.apiKey == ""
    · simp [hc, ih]
    · cases callModel net config prompt s2 maxTokens temperature <;> simp [hc, ih]

/-- A concrete unconfigured entry (empty credential). -/
def cfgUnconfigured : ModelConfig := ⟨.gemini, "gemini-2.5-flash", ""⟩

/-- A second concrete unconfigured entry. -/
def cfgUnconfigured2 : ModelConfig := ⟨.gemini, "gemini-2.0-flash", ""⟩

/-- A concrete configured OpenAI entry. -/
def cfgOpenAI : ModelConfig := ⟨.openai, "gpt-4-turbo", "sk-x"⟩

/-- A world in which every chat-completions call succeeds with content `hello`
and every Gemini call fails with HTTP 500. -/
def chatOkNet : Net :=
  ⟨fun _ => ⟨false, 500, "Internal Server Error", ⟨none⟩⟩,
   fun _ => ⟨true, 200, "OK", ⟨some [⟨some ⟨some "hello"⟩⟩]⟩⟩,
   ""⟩

/-- A world in which every call fails with HTTP 429. -/
def failNet : Net :=
  ⟨fun _ => ⟨false, 429, "Too Many Requests", ⟨none⟩⟩,
   fun _ => ⟨false, 429, "Too Many Requests", ⟨none⟩⟩,
   ""⟩

/-- Claim C1, counterexample. With two unconfigured entries followed by a
configured entry whose adapter call succeeds, the orchestrator returns that
entry's result after exactly one adapter invocation, not the `position`
(3, or 2 as a 0-based index) the claim asserts. -/
theorem claim1_counterexample :
    (callModelWithFallback chatOkNet [cfgUnconfigured, cfgUnconfigured2, cfgOpenAI]
        "p" (none : Option Unit) 1024 0).result =
      Except.ok ⟨"hello", "openai", "gpt-4-turbo", true⟩ ∧
    (callModelWithFallback chatOkNet [cfgUnconfigured, cfgUnconfigured2, cfgOpenAI]
        "p" (none : Option Unit) 1024 0).invoked.length = 1 ∧
    (callModelWithFallback chatOkNet [cfgUnconfigured, cfgUnconfigured2, cfgOpenAI]
        "p" (none : Option Unit) 1024 0).invoked.length ≠ 3 ∧
    (callModelWithFallback chatOkNet [cfgUnconfigured, cfgUnconfigured2, cfgOpenAI]
        "p" (none : Option Unit) 1024 0).invoked.length ≠ 2 :=
  ⟨rfl, rfl, by decide, by decide⟩

/-- Claim C1 (amended): if entry `i` has a non-empty credential and its adapter
call succeeds, and every earlier entry is unconfigured or fails, then
`callModelWithFallback` returns `{content, provider, model, success: true}`
taken from entry `i`, and the adapters invoked are exactly the configured
entries among the first `i + 1` — so no later entry is invoked, and the number
of adapter invocations equals the number of configured entries up to and
including entry `i` (not, as stated, the entry's position). -/
theorem claim1_first_success_returned {σ : Type} (net : Net) (configs : List ModelConfig)
    (prompt : String) (schema : Option σ) (maxTokens : Nat) (temperature : Rat)
    (i : Nat) (ci : ModelConfig) (content : String)
    (hi : configs[i]? = some ci)
    (hconf : ci.apiKey ≠ "")
    (hok : callModel net ci prompt schema maxTokens temperature = Except.ok content)
    (hbefore : ∀ k ck, k < i → configs[k]? = some ck →
      ck.apiKey = "" ∨ exOk (callModel net ck prompt schema maxTokens temperature) = false) :
    (callModelWithFallback net configs prompt schema maxTokens temperature).result =
      Except.ok ⟨content, ci.provider.name, ci.model, true⟩ ∧
    (callModelWithFallback net configs prompt schema maxTokens temperature).invoked =
      (configs.take (i + 1)).filter (fun c => !(c.apiKey == "")) := by
  obtain ⟨h1, h2⟩ := firstSuccess_at net prompt schema maxTokens temperature configs i ci
    content hi hconf hok hbefore
  simp only [callModelWithFallback_spec]
  simp [h1, h2]

/-- Claim C1, witness at a concrete input: a single configured entry that succeeds. -/
theorem claim1_witness :
    (callModelWithFallback chatOkNet [cfgOpenAI] "p" (none : Option Unit) 1024 0).result =
      Except.ok ⟨"hello", cfgOpenAI.provider.name, cfgOpenAI.model, true⟩ ∧
    (callModelWithFallback chatOkNet [cfgOpenAI] "p" (none : Option Unit) 1024 0).invoked =
      (([cfgOpenAI] : List ModelConfig).take (0 + 1)).filter (fun c => !(c.apiKey == "")) :=
  claim1_first_success_returned chatOkNet [cfgOpenAI] "p" none 1024 0 0 cfgOpenAI "hello"
    rfl (by decide) rfl (fun k ck hk _ => absurd hk (Nat.not_lt_zero k))

/-- Claim C2: when every entry has an empty credential, `callModelWithFallback`
fails with the all-providers-exhausted error (one skip record per entry) and no
adapter is ever invoked. -/
theorem claim2_all_unconfigured {σ : Type} (net : Net) (configs : List ModelConfig)
    (prompt : String) (schema : Option σ) (maxTokens : Nat) (temperature : Rat)
    (h : ∀ c ∈ configs, c.apiKey = "") :
    (callModelWithFallback net configs prompt schema maxTokens temperature).result =
      Except.error (allFailedMessage
        (configs.map (fun c => ⟨c, "API key not configured"⟩))) ∧
    (callModelWithFallback net configs prompt schema maxTokens temperature).invoked = [] := by
  have hof : ∀ c ∈ configs,
      c.apiKey = "" ∨ exOk (callModel net c prompt schema maxTokens temperature) = false :=
    fun c hc => Or.inl (h c hc)
  have h1 := firstSuccess_eq_none net prompt schema maxTokens temperature configs hof
  have h2 := attemptRecords_eq_map net prompt schema maxTokens temperature configs hof
  have h2b : attemptRecords net prompt schema maxTokens temperature configs =
      configs.map (fun c => ⟨c, "API key not configured"⟩) := by
    rw [h2]
    apply List.map_congr_left
    intro c hc
    simp [h c hc]
  obtain ⟨n, hn, he⟩ := invokedOf_take_filter net prompt schema maxTokens temperature configs
  have h3 : invokedOf net prompt schema maxTokens temperature configs = [] := by
    rw [he, List.filter_eq_nil_iff]
    intro c hc
    simp [h c (List.take_subset n configs hc)]
  simp only [callModelWithFallback_spec]
  simp [h1, h2b, h3]

/-- Claim C2, witness: a one-entry unconfigured list. -/
theorem claim2_witness :
    (callModelWithFallback chatOkNet [cfgUnconfigured] "p" (none : Option Unit) 1024 0).result =
      Except.error (allFailedMessage
        (([cfgUnconfigured] : List ModelConfig).map (fun c => ⟨c, "API key not configured"⟩))) ∧
    (callModelWithFallback chatOkNet [cfgUnconfigured] "p" (none : Option Unit) 1024 0).invoked = [] :=
  claim2_all_unconfigured chatOkNet [cfgUnconfigured] "p" none 1024 0 (by decide)

/-- Claim C3, counterexample: the record appended for an unconfigured entry
carries the error string `API key not configured`, not the claimed
`credential not configured`. -/
theorem claim3_counterexample :
    (callModelWithFallback chatOkNet [cfgUnconfigured] "p" (none : Option Unit) 1024 0).errors =
      [⟨cfgUnconfigured, "API key not configured"⟩] ∧
    (⟨cfgUnconfigured, "credential not configured"⟩ : AttemptError) ∉
      (callModelWithFallback chatOkNet [cfgUnconfigured] "p" (none : Option Unit) 1024 0).errors :=
  ⟨rfl, by decide⟩

/-- Claim C3 (amended): for every entry with an empty credential, no adapter is
ever invoked for it (every invoked config has a non-empty credential), and when
the loop reaches it (every earlier entry unconfigured or failing) the record
`{config, error: "API key not configured"}` — not `"credential not
configured"` — is appended before moving to the next entry. -/
theorem claim3_unconfigured_skipped {σ : Type} (net : Net) (configs : List ModelConfig)
    (prompt : String) (schema : Option σ) (maxTokens : Nat) (temperature : Rat)
    (j : Nat) (cj : ModelConfig)
    (hj : configs[j]? = some cj) (hempty : cj.apiKey = "") :
    (∀ c ∈ (callModelWithFallback net configs prompt schema maxTokens temperature).invoked,
      c.apiKey ≠ "") ∧
    ((∀ k ck, k < j → configs[k]? = some ck →
        ck.apiKey = "" ∨ exOk (callModel net ck prompt schema maxTokens temperature) = false) →
      (⟨cj, "API key not configured"⟩ : AttemptError) ∈
        (callModelWithFallback net configs prompt schema maxTokens temperature).errors) := by
  constructor
  · simp only [callModelWithFallback_spec]
    exact invokedOf_configured net prompt schema maxTokens temperature configs
  · intro hbef
    simp only [callModelWithFallback_spec]
    exact attemptRecords_mem_skip net prompt schema maxTokens temperature configs j cj
      hj hempty hbef

/-- Claim C3, witness: a one-entry unconfigured list, entry 0. -/
theorem claim3_witness :
    (∀ c ∈ (callModelWithFallback chatOkNet [cfgUnconfigured] "p"
        (none : Option Unit) 1024 0).invoked, c.apiKey ≠ "") ∧
    ((∀ k ck, k < 0 → ([cfgUnconfigured] : List ModelConfig)[k]? = some ck →
        ck.apiKey = "" ∨ exOk (callModel chatOkNet ck "p" (none : Option Unit) 1024 0) = false) →
      (⟨cfgUnconfigured, "API key not configured"⟩ : AttemptError) ∈
        (callModelWithFallback chatOkNet [cfgUnconfigured] "p"
          (none : Option Unit) 1024 0).errors) :=
  claim3_unconfigured_skipped chatOkNet [cfgUnconfigured] "p" none 1024 0 0 cfgUnconfigured
    rfl rfl

/-- Claim C4, counterexample: the thrown message is not the bare newline-joined
attempt lines — it is prefixed by a fixed header line. -/
theorem claim4_counterexample :
    (callModelWithFallback chatOkNet [cfgUnconfigured] "p" (none : Option Unit) 1024 0).result =
      Except.error ("All AI models failed. Please check your API keys, quotas, or network:\n" ++
        "gemini/gemini-2.5-flash: API key not configured") ∧
    ("All AI models failed. Please check your API keys, quotas, or network:\n" ++
        "gemini/gemini-2.5-flash: API key not configured") ≠
      "gemini/gemini-2.5-flash: API key not configured" :=
  ⟨rfl, by decide⟩

/-- Claim C4 (amended): when every entry is skipped or fails, the thrown
message is the fixed header `All AI models failed. Please check your API keys,
quotas, or network:` followed by a newline and the newline-joined
`{provider}/{model}: {error}` lines, one per entry — configured and
unconfigured alike — in input order. -/
theorem claim4_exhaustion_message {σ : Type} (net : Net) (configs : List ModelConfig)
    (prompt : String) (schema : Option σ) (maxTokens : Nat) (temperature : Rat)
    (h : ∀ c ∈ configs,
      c.apiKey = "" ∨ exOk (callModel net c prompt schema maxTokens temperature) = false) :
    (callModelWithFallback net configs prompt schema maxTokens temperature).result =
      Except.error
        ("All AI models failed. Please check your API keys, quotas, or network:\n" ++
          String.intercalate "\n"
            (configs.map (fun c => c.provider.name ++ "/" ++ c.model ++ ": " ++
              (if c.apiKey == "" then "API key not configured"
               else errOf (callModel net c prompt schema maxTokens temperature))))) := by
  have h1 := firstSuccess_eq_none net prompt schema maxTokens temperature configs h
  have h2 := attemptRecords_eq_map net prompt schema maxTokens temperature configs h
  have hmap : (configs.map (fun c => (⟨c,
      if c.apiKey == "" then "API key not configured"
      else errOf (callModel net c prompt schema maxTokens temperature)⟩ : AttemptError))).map
        attemptLine =
      configs.map (fun c => c.provider.name ++ "/" ++ c.model ++ ": " ++
        (if c.apiKey == "" then "API key not configured"
         else errOf (callModel net c prompt schema maxTokens temperature))) := by
    rw [List.map_map]
    apply List.map_congr_left
    intro c hc
    simp [attemptLine]
  simp only [callModelWithFallback_spec, h1]
  rw [h2]
  simp only [allFailedMessage]
  rw [hmap]

/-- Claim C4, witness: one unconfigured and one failing entry under HTTP 429. -/
theorem claim4_witness :
    (callModelWithFallback failNet [cfgUnconfigured, cfgOpenAI] "p"
        (none : Option Unit) 1024 0).result =
      Except.error
        ("All AI models failed. Please check your API keys, quotas, or network:\n" ++
          String.intercalate "\n"
            (([cfgUnconfigured, cfgOpenAI] : List ModelConfig).map
              (fun c => c.provider.name ++ "/" ++ c.model ++ ": " ++
                (if c.apiKey == "" then "API key not configured"
                 else errOf (callModel failNet c "p" (none : Option Unit) 1024 0))))) :=
  claim4_exhaustion_message failNet [cfgUnconfigured, cfgOpenAI] "p" none 1024 0 (by decide)

/-- Claim C5: `getAvailableModels` (the spec's `listAvailable`) is exactly the
filter of the static list by non-empty credential: a sublist of the static list
(original order, no reordering or mutation), every member configured, and
containing every configured member. Being a pure function of the environment,
it performs no network effect (no `Net` argument even occurs in its type). -/
theorem claim5_list_available (e : EnvVars) :
    getAvailableModels e = (modelConfigs e).filter (fun c => !(c.apiKey == "")) ∧
    List.Sublist (getAvailableModels e) (modelConfigs e) ∧
    (∀ c ∈ getAvailableModels e, c.apiKey ≠ "") ∧
    (∀ c ∈ modelConfigs e, c.apiKey ≠ "" → c ∈ getAvailableModels e) := by
  refine ⟨rfl, List.filter_sublist _, ?_, ?_⟩
  · intro c hc
    rw [getAvailableModels, List.mem_filter] at hc
    simpa using hc.2
  · intro c hc hk
    rw [getAvailableModels, List.mem_filter]
    exact ⟨hc, by simpa using hk⟩

/-- A world in which every response is HTTP 200 but the extracted text field is
the empty string (present, yet falsy in JavaScript). -/
def emptyContentNet : Net :=
  ⟨fun _ => ⟨true, 200, "OK", ⟨some [⟨some ⟨[⟨some ""⟩]⟩⟩]⟩⟩,
   fun _ => ⟨true, 200, "OK", ⟨some [⟨some ⟨some ""⟩⟩]⟩⟩,
   ""⟩

/-- Claim C6, counterexample: a successful HTTP response whose first choice
carries the content field with the empty string — the field is present, so the
claim says the adapter returns it, but the source's truthiness check makes the
adapter fail with the invalid-response error instead. -/
theorem claim6_counterexample :
    (emptyContentNet.fetchChat ⟨"https://api.openai.com/v1/chat/completions", "sk-x",
      none, none, "gpt-4-turbo", "p", 0, 1024⟩).ok = true ∧
    chatContentField (emptyContentNet.fetchChat
      ⟨"https://api.openai.com/v1/chat/completions", "sk-x",
        none, none, "gpt-4-turbo", "p", 0, 1024⟩).body = some "" ∧
    callOpenAI emptyContentNet "gpt-4-turbo" "sk-x" "p" (none : Option Unit) 1024 0 =
      Except.error "Invalid response from OpenAI API" :=
  ⟨rfl, rfl, rfl⟩

/-- Claim C6 (amended): for each of the four adapters — on a non-ok HTTP
response the adapter fails with an error naming the status code and reason
phrase; on an ok response whose extracted candidate/choice text field is absent
or empty (JavaScript falsy) it fails with the provider's invalid-response
error; and on an ok response with a present, non-empty text field it returns
that text. (The claim as stated omits the present-but-empty case.) -/
theorem claim6_adapter_errors {σ : Type} (net : Net) (model apiKey prompt : String)
    (schema : Option σ) (maxTokens : Nat) (temperature : Rat) :
    ((net.fetchGemini (geminiRequest model apiKey prompt temperature maxTokens)).ok = false →
      callGemini net model apiKey prompt schema maxTokens temperature =
        Except.error ("Gemini API error: " ++
          toString (net.fetchGemini (geminiRequest model apiKey prompt temperature maxTokens)).status ++
          " " ++ (net.fetchGemini (geminiRequest model apiKey prompt temperature maxTokens)).statusText)) ∧
    ((net.fetchGemini (geminiRequest model apiKey prompt temperature maxTokens)).ok = true →
      truthyString (geminiTextField
        (net.fetchGemini (geminiRequest model apiKey prompt temperature maxTokens)).body) = false →
      callGemini net model apiKey prompt schema maxTokens temperature =
        Except.error "Invalid response from Gemini API") ∧
    (∀ text, (net.fetchGemini (geminiRequest model apiKey prompt temperature maxTokens)).ok = true →
      geminiTextField (net.fetchGemini (geminiRequest model apiKey prompt temperature maxTokens)).body =
        some text →
      text ≠ "" →
      callGemini net model apiKey prompt schema maxTokens temperature = Except.ok text) ∧
    ((net.fetchChat (openAIRequest model apiKey prompt temperature maxTokens)).ok = false →
      callOpenAI net model apiKey prompt schema maxTokens temperature =
        Except.error ("OpenAI API error: " ++
          toString (net.fetchChat (openAIRequest model apiKey prompt temperature maxTokens)).status ++
          " " ++ (net.fetchChat (openAIRequest model apiKey prompt temperature maxTokens)).statusText)) ∧
    ((net.fetchChat (openAIRequest model apiKey prompt temperature maxTokens)).ok = true →
      truthyString (chatContentField
        (net.fetchChat (openAIRequest model apiKey prompt temperature maxTokens)).body) = false →
      callOpenAI net model apiKey prompt schema maxTokens temperature =
        Except.error "Invalid response from OpenAI API") ∧
    (∀ content, (net.fetchChat (openAIRequest model apiKey prompt temperature maxTokens)).ok = true →
      chatContentField (net.fetchChat (openAIRequest model apiKey prompt temperature maxTokens)).body =
        some content →
      content ≠ "" →
      callOpenAI net model apiKey prompt schema maxTokens temperature = Except.ok content) ∧
    ((net.fetchChat (openRouterRequest net model apiKey prompt temperature maxTokens)).ok = false →
      callOpenRouter net model apiKey prompt schema maxTokens temperature =
        Except.error ("OpenRouter API error: " ++
          toString (net.fetchChat (openRouterRequest net model apiKey prompt temperature maxTokens)).status ++
          " " ++ (net.fetchChat (openRouterRequest net model apiKey prompt temperature maxTokens)).statusText)) ∧
    ((net.fetchChat (openRouterRequest net model apiKey prompt temperature maxTokens)).ok = true →
      truthyString (chatContentField
        (net.fetchChat (openRouterRequest net model apiKey prompt temperature maxTokens)).body) = false →
      callOpenRouter net model apiKey prompt schema maxTokens temperature =
        Except.error "Invalid response from OpenRouter API") ∧
    (∀ content, (net.fetchChat (openRouterRequest net model apiKey prompt temperature maxTokens)).ok = true →
      chatContentField (net.fetchChat (openRouterRequest net model apiKey prompt temperature maxTokens)).body =
        some content →
      content ≠ "" →
      callOpenRouter net model apiKey prompt schema maxTokens temperature = Except.ok content) ∧
    ((net.fetchChat (grokRequest model apiKey prompt temperature maxTokens)).ok = false →
      callGrok net model apiKey prompt schema maxTokens temperature =
        Except.error ("Grok API error: " ++
          toString (net.fetchChat (grokRequest model apiKey prompt temperature maxTokens)).status ++
          " " ++ (net.fetchChat (grokRequest model apiKey prompt temperature maxTokens)).statusText)) ∧
    ((net.fetchChat (grokRequest model apiKey prompt temperature maxTokens)).ok = true →
      truthyString (chatContentField
        (net.fetchChat (grokRequest model apiKey prompt temperature maxTokens)).body) = false →
      callGrok net model apiKey prompt schema maxTokens temperature =
        Except.error "Invalid response from Grok API") ∧
    (∀ content, (net.fetchChat (grokRequest model apiKey prompt temperature maxTokens)).ok = true →
      chatContentField (net.fetchChat (grokRequest model apiKey prompt temperature maxTokens)).body =
        some content →
      content ≠ "" →
      callGrok net model apiKey prompt schema maxTokens temperature = Except.ok content) := by
  refine ⟨?_, ?_, ?_, ?_, ?_, ?_, ?_, ?_, ?_, ?_, ?_, ?_⟩
  · intro hok
    simp [callGemini, hok]
  · intro hok hfield
    simp only [callGemini, hok, Bool.true_eq_false, if_neg, not_false_eq_true]
    rcases hval : geminiTextField
        (net.fetchGemini (geminiRequest model apiKey prompt temperature maxTokens)).body with _ | text
    · simp
    · rw [hval] at hfield
      simp only [truthyString, Bool.not_eq_false'] at hfield
      simp [hfield]
  · intro text hok hfield htext
    simp only [callGemini, hok, Bool.true_eq_false, if_neg, not_false_eq_true, hfield]
    simp [htext]
  · intro hok
    simp [callOpenAI, hok]
  · intro hok hfield
    simp only [callOpenAI, hok, Bool.true_eq_false, if_neg, not_false_eq_true]
    rcases hval : chatContentField
        (net.fetchChat (openAIRequest model apiKey prompt temperature maxTokens)).body with _ | content
    · simp
    · rw [hval] at hfield
      simp only [truthyString, Bool.not_eq_false'] at hfield
      simp [hfield]
  · intro content hok hfield hcontent
    simp only [callOpenAI, hok, Bool.true_eq_false, if_neg, not_false_eq_true, hfield]
    simp [hcontent]
  · intro hok
    simp [callOpenRouter, hok]
  · intro hok hfield
    simp only [callOpenRouter, hok, Bool.true_eq_false, if_neg, not_false_eq_true]
    rcases hval : chatContentField
        (net.fetchChat (openRouterRequest net model apiKey prompt temperature maxTokens)).body with _ | content
    · simp
    · rw [hval] at hfield
      simp only [truthyString, Bool.not_eq_false'] at hfield
      simp [hfield]
  · intro content hok hfield hcontent
    simp only [callOpenRouter, hok, Bool.true_eq_false, if_neg, not_false_eq_true, hfield]
    simp [hcontent]
  · intro hok
    simp [callGrok, hok]
  · intro hok hfield
    simp only [callGrok, hok, Bool.true_eq_false, if_neg, not_false_eq_true]
    rcases hval : chatContentField
        (net.fetchChat (grokRequest model apiKey prompt temperature maxTokens)).body with _ | content
    · simp
    · rw [hval] at hfield
      simp only [truthyString, Bool.not_eq_false'] at hfield
      simp [hfield]
  · intro content hok hfield hcontent
    simp only [callGrok, hok, Bool.true_eq_false, if_neg, not_false_eq_true, hfield]
    simp [hcontent]

/-- Claim C7: within one call the orchestrator visits entries strictly in list
order and invokes each at most once — the invocation trace is the configured
part of some prefix of the list, and in particular a sublist of the list (no
reordering, no repetition of a position, no retry). -/
theorem claim7_strictly_sequential {σ : Type} (net : Net) (configs : List ModelConfig)
    (prompt : String) (schema : Option σ) (maxTokens : Nat) (temperature : Rat) :
    (∃ n, n ≤ configs.length ∧
      (callModelWithFallback net configs prompt schema maxTokens temperature).invoked =
        (configs.take n).filter (fun c => !(c.apiKey == ""))) ∧
    List.Sublist
      (callModelWithFallback net configs prompt schema maxTokens temperature).invoked
      configs := by
  obtain ⟨n, hn, he⟩ := invokedOf_take_filter net prompt schema maxTokens temperature configs
  constructor
  · exact ⟨n, hn, by simp only [callModelWithFallback_spec]; exact he⟩
  · simp only [callModelWithFallback_spec]
    rw [he]
    exact (List.filter_sublist _).trans (List.take_sublist n configs)

/-- The health-check records carry the config of each input entry, in order. -/
lemma checkLoop_map_config (net : Net) :
    ∀ l : List ModelConfig, (checkLoop net l).1.map (fun r => r.config) = l := by
  intro l
  induction l with
  | nil => simp [checkLoop]
  | cons config rest ih =>
    by_cases hc : config.apiKey == ""
    · simp [checkLoop, hc, ih]
    · cases hm : callModel net config "ping" (none : Option Unit) 16 0 with
      | ok content => simp [checkLoop, hc, hm, ih]
      | error m => simp [checkLoop, hc, hm, ih]

/-- The health check probes exactly the configured entries, in order. -/
lemma checkLoop_probes (net : Net) :
    ∀ l : List ModelConfig,
      (checkLoop net l).2 = l.filter (fun c => !(c.apiKey == "")) := by
  intro l
  induction l with
  | nil => simp [checkLoop]
  | cons config rest ih =>
    by_cases hc : config.apiKey == ""
    · simp [checkLoop, hc, ih]
    · cases hm : callModel net config "ping" (none : Option Unit) 16 0 with
      | ok content => simp [checkLoop, hc, hm, ih]
      | error m => simp [checkLoop, hc, hm, ih]

/-- Shape of every health-check record: the error field is present exactly when
`available` is false; an unconfigured entry yields `available = false` with the
fixed error; a configured entry's `available` reflects the `ping` probe. -/
lemma checkLoop_records (net : Net) :
    ∀ l : List ModelConfig, ∀ r ∈ (checkLoop net l).1,
      (r.available = false ↔ r.error ≠ none) ∧
      (r.config.apiKey = "" → r.available = false ∧ r.error = some "API key not configured") ∧
      (r.config.apiKey ≠ "" →
        r.available = exOk (callModel net r.config "ping" (none : Option Unit) 16 0)) := by
  intro l
  induction l with
  | nil => simp [checkLoop]
  | cons config rest ih =>
    intro r hr
    by_cases hc : config.apiKey == ""
    · simp only [checkLoop, hc, if_pos] at hr
      rcases List.mem_cons.mp hr with rfl | htail
      · refine ⟨by simp, fun _ => ⟨rfl, rfl⟩, fun hne => absurd (by simpa using hc) hne⟩
      · exact ih r htail
    · cases hm : callModel net config "ping" (none : Option Unit) 16 0 with
      | ok content =>
        simp only [checkLoop, hc, Bool.false_eq_true, if_neg, not_false_eq_true, hm] at hr
        rcases List.mem_cons.mp hr with rfl | htail
        · exact ⟨by simp, fun he => absurd he (by simpa using hc), fun _ => by simp [hm, exOk]⟩
        · exact ih r htail
      | error m =>
        simp only [checkLoop, hc, Bool.false_eq_true, if_neg, not_false_eq_true, hm] at hr
        rcases List.mem_cons.mp hr with rfl | htail
        · exact ⟨by simp, fun he => absurd he (by simpa using hc), fun _ => by simp [hm, exOk]⟩
        · exact ih r htail

/-- Claim C8: `checkModelAvailability` (the spec's `checkAvailability`) returns
one record per entry in list order; it probes every configured entry with the
prompt `ping` and a 16-token, temperature-0 budget, not stopping at the first
success; unconfigured entries get `available = false` with error `API key not
configured`; and a record carries an error exactly when `available` is false. -/
theorem claim8_availability_check (net : Net) (configs : List ModelConfig) :
    ((checkModelAvailability net configs).1.map (fun r => r.config) = configs) ∧
    ((checkModelAvailability net configs).2 = configs.filter (fun c => !(c.apiKey == ""))) ∧
    (∀ r ∈ (checkModelAvailability net configs).1, (r.available = false ↔ r.error ≠ none)) ∧
    (∀ r ∈ (checkModelAvailability net configs).1, r.config.apiKey = "" →
      r.available = false ∧ r.error = some "API key not configured") ∧
    (∀ r ∈ (checkModelAvailability net configs).1, r.config.apiKey ≠ "" →
      r.available = exOk (callModel net r.config "ping" (none : Option Unit) 16 0)) := by
  refine ⟨checkLoop_map_config net configs, checkLoop_probes net configs, ?_, ?_, ?_⟩
  · exact fun r hr => (checkLoop_records net configs r hr).1
  · exact fun r hr => (checkLoop_records net configs r hr).2.1
  · exact fun r hr => (checkLoop_records net configs r hr).2.2

/-- Claim C9: every `FallbackResponse` the orchestrator returns has
`success = true`; failure is only ever a thrown error. -/
theorem claim9_success_always_true {σ : Type} (net : Net) (configs : List ModelConfig)
    (prompt : String) (schema : Option σ) (maxTokens : Nat) (temperature : Rat)
    (r : FallbackResponse)
    (h : (callModelWithFallback net configs prompt schema maxTokens temperature).result =
      Except.ok r) :
    r.success = true := by
  simp only [callModelWithFallback_spec] at h
  cases hf : firstSuccess net prompt schema maxTokens temperature configs with
  | none => rw [hf] at h; simp at h
  | some p =>
    obtain ⟨c, content⟩ := p
    rw [hf] at h
    simp only [Except.ok.injEq] at h
    rw [← h]

/-- Claim C9, witness: a concrete successful run. -/
theorem claim9_witness :
    (⟨"hello", "openai", "gpt-4-turbo", true⟩ : FallbackResponse).success = true :=
  claim9_success_always_true chatOkNet [cfgOpenAI] "p" (none : Option Unit) 1024 0
    ⟨"hello", "openai", "gpt-4-turbo", true⟩ rfl

/-- Claim C10: the schema argument is inert — with the same prompt, token and
temperature settings, configuration list and network (provider responses), any
two schema values (even of different types) give the same outcome: same
returned response or same thrown message, same invocations, same records. The
request types (`GeminiRequest`, `ChatRequest`) carry no schema field, so no
request body can depend on it. -/
theorem claim10_schema_inert {σ₁ σ₂ : Type} (net : Net) (configs : List ModelConfig)
    (prompt : String) (s1 : Option σ₁) (s2 : Option σ₂) (maxTokens : Nat)
    (temperature : Rat) :
    callModelWithFallback net configs prompt s1 maxTokens temperature =
      callModelWithFallback net configs prompt s2 maxTokens temperature :=
  fallbackLoop_schema net prompt s1 s2 maxTokens temperature configs [] []

end MyBot
